import Mathlib

/-!
Verification of the status-derivation and aggregation engine of the
config-operations-hub dashboards (ARC / CRM / Integration / Regression).

Dates are modelled as day ordinals (`Int`); "today" is always passed
explicitly, mirroring the code's `pd.Timestamp.now().normalize()`.
A pandas cell that may be NaN / NaT is modelled as `Option`; the string
`""` is the empty cell that several rules also treat as blank.
-/

namespace Hub

/-- Python `str.lower()` (ASCII vocabulary). -/
def pyLower (s : String) : String :=
  (s.toList.map Char.toLower).asString

/-- Python `str.upper()` (ASCII vocabulary). -/
def pyUpper (s : String) : String :=
  (s.toList.map Char.toUpper).asString

/-- Python `str.strip()`: drop leading and trailing whitespace. -/
def pyStrip (s : String) : String :=
  (((s.toList.dropWhile Char.isWhitespace).reverse.dropWhile Char.isWhitespace).reverse).asString

/-- Lexicographic code-point comparison, the order Python `sorted` uses
on strings. -/
def charListLe : List Char → List Char → Bool
  | [], _ => true
  | _ :: _, [] => false
  | a :: as, b :: bs => if a < b then true else if b < a then false else charListLe as bs

def pyStrLe (a b : String) : Bool :=
  charListLe a.toList b.toList

/-- Python `sorted` on strings (insertion sort; the order is total, so
the result is the unique sorted permutation). -/
def insertSorted (x : String) : List String → List String
  | [] => [x]
  | y :: ys => if pyStrLe x y then x :: y :: ys else y :: insertSorted x ys

def pySorted (l : List String) : List String :=
  l.foldr insertSorted []

/-- Python `pat in s` (substring containment), used by the CRM value
normalizer and the KPI `str.contains` counters. -/
def strContains (s pat : String) : Bool :=
  (List.range (s.toList.length + 1)).any (fun i => pat.toList.isPrefixOf (s.toList.drop i))

/-- `pandas.astype(str)` on a possibly-NaN cell: NaN prints as "nan". -/
def astypeStr : Option String → String
  | none => "nan"
  | some s => s

/-- Python `str.title()`: every alphabetic run starts uppercase, rest lowercase. -/
def titleCaseGo : List Char → Bool → List Char
  | [], _ => []
  | c :: cs, startOfWord =>
    if c.isAlpha then
      (if startOfWord then c.toUpper else c.toLower) :: titleCaseGo cs false
    else
      c :: titleCaseGo cs true

def titleCase (s : String) : String :=
  (titleCaseGo s.toList true).asString

/-- A cell that pandas `isna` reports as missing, or the empty string:
the blanks test `pd.isna(v) or v == ''` used throughout the classifiers. -/
def isBlankCell : Option String → Bool
  | none => true
  | some s => s = ""

/-- pandas `unique()`: first occurrence order, duplicates dropped. -/
def pdUnique (l : List String) : List String :=
  l.foldl (fun acc x => if x ∈ acc then acc else acc ++ [x]) []

end Hub

namespace CRM

open Hub

/-- One CRM record after the loader: `Go Live Date` parsed with
`errors='coerce'` (unparseable → `none`), raw per-dimension cells. -/
structure Row where
  goLive : Option Int
  configType : Option String
  domainUpdated : Option String
  setupCheck : Option String
  sampleADF : Option String
  inboundEmail : Option String
  outboundEmail : Option String
  dataMigration : Option String
  region : Option String
  deriving Repr, DecidableEq

/-- `Days to Go Live` column: `(Go Live Date - today).dt.days`; NaT → NaN. -/
def daysToGoLive (today : Int) (r : Row) : Option Int :=
  r.goLive.map (fun g => g - today)

/-- The rolled-out test of `get_config_status` / `get_pre_go_live_status` /
`get_go_live_testing_status`: normalized go-live date strictly before
normalized today; a missing date is never rolled out. -/
def isRolledOut (today : Int) (goLive : Option Int) : Bool :=
  match goLive with
  | some g => g < today
  | none => false

/-- The Configuration Type normalization inside `get_config_status`:
lower+strip, substring match for standard/copy/implementation/not
configured, anything else (or a non-string cell) becomes `none`. -/
def normalizeConfigType : Option String → Option String
  | none => none
  | some s =>
    let l := Hub.pyStrip (Hub.pyLower s)
    if strContains l "standard" || strContains l "stnadard" then some "Standard"
    else if strContains l "copy" then some "Copy"
    else if strContains l "implementation" then some "Copy"
    else if strContains l "not configured" then some "Not Configured"
    else none

/-- `get_config_status` (crm_dashboard/utils/data_processor.py). -/
def getConfigStatus (today : Int) (r : Row) : Option String :=
  let configType := normalizeConfigType r.configType
  let rolledOut := isRolledOut today r.goLive
  if rolledOut && configType.isNone then some "Data Incorrect"
  else if configType.isNone then none
  else configType

/-- `get_pre_go_live_status` (crm_dashboard/utils/data_processor.py). -/
def getPreGoLiveStatus (today : Int) (r : Row) : Option String :=
  let rolledOut := isRolledOut today r.goLive
  let domain := r.domainUpdated
  let setup := r.setupCheck
  let bothBlank := isBlankCell domain && isBlankCell setup
  if rolledOut && bothBlank then some "Data Incorrect"
  else if bothBlank then none
  else if domain = some "Yes" && setup = some "Yes" then some "GTG"
  else if domain = some "No" && setup = some "No" then some "Fail"
  else if (domain = some "Yes" && setup = some "No") ||
          (domain = some "No" && setup = some "Yes") then some "Partial"
  else if (domain = some "Yes" && isBlankCell setup) ||
          (isBlankCell domain && setup = some "Yes") then some "Partial"
  else if (domain = some "No" && isBlankCell setup) ||
          (isBlankCell domain && setup = some "No") then some "Partial"
  else none

/-- The GTG filter of `get_go_live_testing_status`: only non-NaN,
non-empty values are tested for membership in {Yes, No Issues}. -/
def passesOrBlank : Option String → Bool
  | none => true
  | some s => if s = "" then true else s = "Yes" || s = "No Issues"

/-- A test value that sets `has_blocker` / `has_non_blocker`:
non-NaN and outside {Yes, No Issues, Unable to Test, Umable to Test, ""}. -/
def isFailing : Option String → Bool
  | none => false
  | some s =>
    !(s = "Yes" || s = "No Issues" || s = "Unable to Test" ||
      s = "Umable to Test" || s = "")

/-- `get_go_live_testing_status` (crm_dashboard/utils/data_processor.py):
future go-lives short-circuit to `None` before any test is looked at. -/
def getGoLiveTestingStatus (today : Int) (r : Row) : Option String :=
  if (match daysToGoLive today r with | some d => decide (d > 0) | none => false) then none
  else
    let rolledOut := isRolledOut today r.goLive
    let vals := [r.sampleADF, r.inboundEmail, r.outboundEmail, r.dataMigration]
    let allBlank := vals.all isBlankCell
    if rolledOut && allBlank then some "Data Incorrect"
    else if allBlank then none
    else if vals.all passesOrBlank then some "GTG"
    else
      let hasBlocker := isFailing r.sampleADF || isFailing r.dataMigration
      let hasNonBlocker := isFailing r.inboundEmail || isFailing r.outboundEmail
      if hasBlocker && hasNonBlocker then some "Go Live Blocker & Non-Blocker"
      else if hasBlocker then some "Go Live Blocker"
      else if hasNonBlocker then some "Non-Blocker"
      else none

/-- Count of cells equal to a given (non-null) status value. -/
def countEq (sts : List (Option String)) (v : String) : Nat :=
  (sts.filter (fun s => s = some v)).length

/-- Count of cells whose value contains `pat` as a substring
(`str.contains(pat, na=False)`). -/
def countContains (sts : List (Option String)) (pat : String) : Nat :=
  (sts.filter (fun s => match s with
    | some t => Hub.strContains t pat
    | none => false)).length

/-- Number of records with a non-null status (`notna`). -/
def countNonNull (sts : List (Option String)) : Nat :=
  (sts.filter (fun s => s.isSome)).length

/-- `get_configuration_kpis`: drops null statuses, then counts the four
configuration statuses plus the `Go Lives` denominator. -/
def getConfigurationKpis (sts : List (Option String)) : List (String × Nat) :=
  [("Go Lives", countNonNull sts),
   ("Standard", countEq sts "Standard"),
   ("Copy", countEq sts "Copy"),
   ("Not Configured", countEq sts "Not Configured"),
   ("Data Incorrect", countEq sts "Data Incorrect")]

/-- The status-count part of `get_pre_go_live_kpis`. -/
def getPreGoLiveKpis (sts : List (Option String)) : List (String × Nat) :=
  [("GTG", countEq sts "GTG"),
   ("Partial", countEq sts "Partial"),
   ("Fail", countEq sts "Fail"),
   ("Data Incorrect", countEq sts "Data Incorrect")]

/-- The status-count part of `get_go_live_testing_kpis`: the Blocker and
Non-Blocker cards use `str.contains`, the others exact equality. -/
def getGoLiveTestingKpis (sts : List (Option String)) : List (String × Nat) :=
  [("GTG", countEq sts "GTG"),
   ("Go Live Blocker", countContains sts "Go Live Blocker"),
   ("Non-Blocker", countContains sts "Non-Blocker"),
   ("Fail", countEq sts "Fail"),
   ("Data Incorrect", countEq sts "Data Incorrect")]

/-- CRM `get_regions`: `astype(str).str.strip().str.title()`, unique,
drop the empty and the stringified-NaN region, sort, prepend "All".
Builds a new series; the stored DataFrame is left untouched. -/
def getRegions (df : List Row) : List String :=
  let normalized := df.map (fun r => Hub.titleCase (Hub.pyStrip (Hub.astypeStr r.region)))
  let regions := (Hub.pdUnique normalized).filter (fun r => r ≠ "" && r ≠ "Nan")
  if regions.isEmpty then ["All"]
  else "All" :: Hub.pySorted regions

/-- The region-key normalization of `get_region_counts`:
`upper().replace(' ','').replace('_','')`. -/
def regionKey (s : String) : String :=
  ((Hub.pyUpper s).toList.filter (fun c => c ≠ ' ' && c ≠ '_')).asString

/-- A generic row as seen by `get_region_counts`: the relevant status
column plus the raw Region column. -/
structure AggRow where
  status : Option String
  region : Option String
  deriving Repr, DecidableEq

/-- The status filter at the top of CRM `get_region_counts`: substring
match when the value names a Blocker card, exact match otherwise. -/
def statusFiltered (statusValue : String) (df : List AggRow) : List AggRow :=
  if Hub.strContains statusValue "Blocker" || Hub.strContains statusValue "Non-Blocker" then
    df.filter (fun r => match r.status with
      | some t => Hub.strContains t statusValue
      | none => false)
  else
    df.filter (fun r => r.status = some statusValue)

/-- The per-region count inside CRM `get_region_counts`: case- and
separator-insensitive comparison of the Region column with the key. -/
def regionMatchCount (filtered : List AggRow) (region : String) : Nat :=
  (filtered.filter (fun r =>
    regionKey (Hub.astypeStr r.region) = regionKey region)).length

/-- CRM `get_region_counts`: rows of the (possibly filtered) slice are
matched on the status value (substring match for the Blocker cards),
but the region keys always come from `get_regions()` on the FULL
dataset held by the processor. -/
def getRegionCounts (full : List Row) (statusValue : String)
    (df : List AggRow) : List (String × Nat) :=
  let filtered := statusFiltered statusValue df
  (getRegions full).map (fun region =>
    if region = "All" then (region, filtered.length)
    else (region, regionMatchCount filtered region))

/-- Sum of the count values of a KPI table. -/
def kpiSum (kpis : List (String × Nat)) : Nat :=
  (kpis.map Prod.snd).sum

/-- The `Days to Go Live` display formatter of `get_display_dataframe`:
negative days render as "Rolled Out", otherwise `str(int(x))`; a NaN
days value (unparseable go-live date) makes `int(x)` raise ValueError. -/
def formatDaysToGoLive : Option Int → Except String String
  | some d => if d < 0 then .ok "Rolled Out" else .ok (toString d)
  | none => .error "ValueError: cannot convert float NaN to integer"

end CRM

namespace CRMAnalytics

/-- A sub-check of `_get_score_distribution` fails when the cell value is
not in {Yes, No Issues} (a missing cell therefore fails). -/
def checkFails : Option String → Bool
  | none => true
  | some s => !(s = "Yes" || s = "No Issues")

/-- The weighted Go-Live-Testing score of `_get_score_distribution`:
start at 100, subtract 40 / 12.5 / 12.5 / 35 per failing check. -/
def weightedScore (r : CRM.Row) : ℚ :=
  let s0 : ℚ := 100
  let s1 := if checkFails r.sampleADF then s0 - 40 else s0
  let s2 := if checkFails r.inboundEmail then s1 - 25/2 else s1
  let s3 := if checkFails r.outboundEmail then s2 - 25/2 else s2
  if checkFails r.dataMigration then s3 - 35 else s3

/-- The score bucketing of `_get_score_distribution`:
`s >= 90`, `75 <= s < 90`, `60 <= s < 75`, `s < 60`. -/
def scoreTier (s : ℚ) : String :=
  if 90 ≤ s then "Excellent"
  else if 75 ≤ s ∧ s < 90 then "Good"
  else if 60 ≤ s ∧ s < 75 then "NeedsImprovement"
  else "Critical"

end CRMAnalytics

namespace Integration

open Hub

/-- One Integration record after `_prepare_data`: required columns as
raw cells, go-live date parsed with `errors='coerce'`. -/
structure Row where
  dealerName : Option String
  dealerID : Option String
  goLive : Option Int
  implType : Option String
  pem : Option String
  director : Option String
  assignee : Option String
  vendorListUpdated : Option String
  region : Option String
  deriving Repr, DecidableEq

/-- Threshold row of `THRESHOLDS` (integration_dashboard/config/settings.py). -/
structure Thresholds where
  onTrack : Int
  criticalMin : Int
  criticalMax : Int
  escalated : Int
  deriving Repr, DecidableEq

/-- `THRESHOLDS` lookup (`dict.get`): only the three configured
implementation types resolve. -/
def THRESHOLDS : String → Option Thresholds
  | "Conquest" => some ⟨60, 30, 60, 30⟩
  | "Buy/Sell" => some ⟨15, 3, 15, 3⟩
  | "New Point" => some ⟨15, 3, 15, 3⟩
  | _ => none

/-- `_is_data_incomplete`: any required field NaN or empty. -/
def isDataIncomplete (r : Row) : Bool :=
  isBlankCell r.dealerName || isBlankCell r.dealerID || r.goLive.isNone ||
  isBlankCell r.implType || isBlankCell r.pem || isBlankCell r.director ||
  isBlankCell r.assignee

/-- `_calculate_status` (integration_dashboard/utils/data_processor.py). -/
def calculateStatus (today : Int) (r : Row) : String :=
  if isDataIncomplete r then "Data Incomplete"
  else if r.vendorListUpdated = some "Yes" then "GTG"
  else if r.vendorListUpdated ≠ some "No" then "Data Incomplete"
  else
    match r.goLive, r.implType with
    | some g, some implType =>
      if implType = "" then "Data Incomplete"
      else
        let days := g - today
        if days < 0 then "GTG"
        else
          let t := (THRESHOLDS implType).getD ⟨15, 3, 15, 3⟩
          if days < t.escalated then "Escalated"
          else if t.criticalMin ≤ days ∧ days ≤ t.criticalMax then "Critical"
          else if days > t.onTrack then "On Track"
          else "Critical"
    | _, _ => "Data Incomplete"

/-- A processed Integration row as seen by the aggregation helpers:
the computed `Status` column plus the raw `Region` column. -/
structure ProcRow where
  status : String
  region : Option String
  deriving Repr, DecidableEq

/-- Integration `get_regions`: `dropna().unique()`, sorted; defaults to
["Unknown"] when the column is all-missing. No 'All' entry, no
normalization, and crucially it reads the DataFrame it is PASSED. -/
def getRegions (df : List ProcRow) : List String :=
  let present := df.filterMap (fun r => r.region)
  if present.isEmpty then ["Unknown"]
  else
    let regions := pySorted (pdUnique present)
    if regions.isEmpty then ["Unknown"] else regions

/-- Integration `get_region_counts`: the region keys come from
`get_regions(df)` on the PASSED (already filtered) slice. -/
def getRegionCounts (status : String) (df : List ProcRow) : List (String × Nat) :=
  let statusDf := if status = "Total Go Lives" then df
                  else df.filter (fun r => r.status = status)
  (getRegions df).map (fun region =>
    (region, (statusDf.filter (fun r => r.region = some region)).length))

/-- Integration `filter_by_region`: `df[df['Region'] == region].copy()`. -/
def filterByRegion (region : String) (df : List ProcRow) : List ProcRow :=
  df.filter (fun r => r.region = some region)

end Integration

namespace ARC

open Hub

/-- One ARC record after `load_arc_data_from_excel`: Region is fillna'd
to a plain string by the loader; module statuses may still be blank. -/
structure Row where
  dealership : String
  goLive : Option Int
  implType : String
  assignedTo : String
  region : String
  parts : Option String
  service : Option String
  accounting : Option String
  deriving Repr, DecidableEq

/-- `Is Rolled Out` column of the ARC loader: `Days to Go Live < 0`
(NaT days compare false). -/
def isRolledOut (today : Int) (goLive : Option Int) : Bool :=
  match goLive with
  | some g => g - today < 0
  | none => false

/-- `process_module_status` (arc_dashboard/data/excel_loader.py):
blank + rolled out → "Not Configured"; blank + not rolled out → None;
otherwise the synonym-standardized value, unknown passed through. -/
def processModuleStatus (status : Option String) (isRolledOut : Bool) : Option String :=
  let statusStr := match status with
    | none => ""
    | some s => pyStrip s
  if statusStr = "" || (pyLower statusStr = "nan" || pyLower statusStr = "none" ||
      pyLower statusStr = "n/a" || pyLower statusStr = "na") then
    if isRolledOut then some "Not Configured" else none
  else
    let l := pyLower statusStr
    if l = "completed" || l = "complete" || l = "done" then some "Completed"
    else if l = "wip" || l = "in progress" || l = "work in progress" then some "WIP"
    else if l = "not configured" || l = "not started" || l = "pending" then some "Not Configured"
    else some statusStr

/-- ARC `filter_by_status`: dealerships where at least one module has the
status; returns a copy, the input list is untouched. -/
def filterByStatus (status : String) (df : List Row) : List Row :=
  df.filter (fun r =>
    r.parts = some status || r.service = some status || r.accounting = some status)

/-- ARC `filter_by_region`: 'All' returns everything (copied). -/
def filterByRegion (region : String) (df : List Row) : List Row :=
  if region = "All" then df
  else df.filter (fun r => r.region = region)

/-- The in-place Region rewrite performed by ARC `get_regions`:
`df['Region'] = df['Region'].astype(str).str.strip().str.title()`. -/
def normalizeRegionColumn (df : List Row) : List Row :=
  df.map (fun r => { r with region := titleCase (pyStrip r.region) })

/-- ARC `get_regions` (arc_dashboard/utils/data_processor.py): returns the
region options AND the record set as it stands after the call — the
title-casing is assigned back into the input DataFrame's Region column. -/
def getRegions (df : List Row) : List String × List Row :=
  let df2 := normalizeRegionColumn df
  let regions := (pdUnique (df2.map (fun r => r.region))).filter
    (fun r => r ≠ "" && r ≠ "Nan")
  if regions.isEmpty then (["All"], df2)
  else ("All" :: Hub.pySorted regions, df2)

end ARC

namespace Regression

open Hub

/-- One Regression record after `_prepare_data`: Status cleaned so that
an empty cell is stored as null; dates coerced. -/
structure Row where
  goLive : Option Int
  simStart : Option Int
  status : Option String
  region : String
  deriving Repr, DecidableEq

/-- The `Data Incomplete` count of `get_kpis` (regression dashboard):
SIM Start Date strictly before today AND blank status. The go-live
date is not consulted. -/
def isDataIncomplete (today : Int) (r : Row) : Bool :=
  (match r.simStart with | some d => d < today | none => false) &&
  (r.status.isNone || r.status = some "")

/-- Regression `filter_by_region`: 'All Regions' returns everything. -/
def filterByRegion (region : String) (df : List Row) : List Row :=
  if region = "All Regions" then df
  else df.filter (fun r => r.region = region)

/-- The in-place Region rewrite performed by Regression `get_regions`
(same `astype(str).str.strip().str.title()` assignment as ARC). -/
def normalizeRegionColumn (df : List Row) : List Row :=
  df.map (fun r => { r with region := titleCase (pyStrip r.region) })

/-- Regression `get_regions`: region options plus the record set after
the call (its Region column has been rewritten in place). -/
def getRegions (df : List Row) : List String × List Row :=
  let df2 := normalizeRegionColumn df
  let regions := (pdUnique (df2.map (fun r => r.region))).filter
    (fun r => r ≠ "" && r ≠ "Nan")
  if regions.isEmpty then (["All"], df2)
  else ("All" :: Hub.pySorted regions, df2)

end Regression

/-- A CRM record with every dimension input blank (NaN). -/
def crmBlankInputs (goLive : Option Int) : CRM.Row :=
  ⟨goLive, none, none, none, none, none, none, none, some "NAM"⟩

/-- An Integration record with every required field present. -/
def intRowFull (vlu implType : Option String) (goLive : Option Int) : Integration.Row :=
  ⟨some "Dealer", some "42", goLive, implType, some "pem", some "dir", some "asgn", vlu, some "NAM"⟩

lemma intRowFull_not_incomplete (vlu : Option String) (it : String) (g : Int) :
    Integration.isDataIncomplete (intRowFull vlu (some it) (some g)) =
      Hub.isBlankCell (some it) := by
  simp [Integration.isDataIncomplete, intRowFull, Hub.isBlankCell]

lemma calcStatus_full (today g : Int) (it : String) (hit : it ≠ "") :
    Integration.calculateStatus today (intRowFull (some "No") (some it) (some g)) =
      (if g - today < 0 then "GTG"
       else
         let t := (Integration.THRESHOLDS it).getD ⟨15, 3, 15, 3⟩
         if g - today < t.escalated then "Escalated"
         else if t.criticalMin ≤ g - today ∧ g - today ≤ t.criticalMax then "Critical"
         else if g - today > t.onTrack then "On Track"
         else "Critical") := by
  simp [Integration.calculateStatus, Integration.isDataIncomplete, Hub.isBlankCell,
    intRowFull, hit]

/-- C2: in every domain's classifier a record is rolled out exactly when
its days-until-go-live is strictly negative; go-live equal to today is
not rolled out, go-live yesterday is. -/
theorem C2_rolled_out_boundary (today g : Int) :
    (CRM.isRolledOut today (some g) = decide (g - today < 0)) ∧
    (ARC.isRolledOut today (some g) = decide (g - today < 0)) ∧
    CRM.isRolledOut today (some today) = false ∧
    CRM.isRolledOut today (some (today - 1)) = true ∧
    ARC.isRolledOut today (some today) = false ∧
    ARC.isRolledOut today (some (today - 1)) = true ∧
    CRM.getPreGoLiveStatus today (crmBlankInputs (some today)) = none ∧
    CRM.getPreGoLiveStatus today (crmBlankInputs (some (today - 1))) = some "Data Incorrect" ∧
    Integration.calculateStatus today
      (intRowFull (some "No") (some "Conquest") (some today)) = "Escalated" ∧
    Integration.calculateStatus today
      (intRowFull (some "No") (some "Conquest") (some (today - 1))) = "GTG" := by
  refine ⟨?_, ?_, ?_, ?_, ?_, ?_, ?_, ?_, ?_, ?_⟩
  · simp only [CRM.isRolledOut]
    exact decide_eq_decide.mpr (by omega)
  · simp only [ARC.isRolledOut]
  · simp [CRM.isRolledOut]
  · simp [CRM.isRolledOut]
  · simp [ARC.isRolledOut]
  · simp [ARC.isRolledOut]
  · simp [CRM.getPreGoLiveStatus, crmBlankInputs, CRM.isRolledOut, Hub.isBlankCell]
  · simp [CRM.getPreGoLiveStatus, crmBlankInputs, CRM.isRolledOut, Hub.isBlankCell]
  · rw [calcStatus_full today today "Conquest" (by decide)]
    simp [Integration.THRESHOLDS]
  · rw [calcStatus_full today (today - 1) "Conquest" (by decide)]
    simp

/-- C3: Integration SLA thresholds are inclusive exactly as the table
states: for Conquest 60 and 30 days are Critical, 61 On Track, below 30
Escalated; for Buy/Sell and New Point 15 and 3 days are Critical, 16 On
Track, below 3 Escalated (all with the completion flag 'No', required
fields present, non-negative days). -/
theorem C3_integration_threshold_boundaries (today d : Int) :
    (Integration.calculateStatus today
      (intRowFull (some "No") (some "Conquest") (some (today + 60))) = "Critical") ∧
    (Integration.calculateStatus today
      (intRowFull (some "No") (some "Conquest") (some (today + 61))) = "On Track") ∧
    (Integration.calculateStatus today
      (intRowFull (some "No") (some "Conquest") (some (today + 30))) = "Critical") ∧
    (0 ≤ d → d < 30 → Integration.calculateStatus today
      (intRowFull (some "No") (some "Conquest") (some (today + d))) = "Escalated") ∧
    (Integration.calculateStatus today
      (intRowFull (some "No") (some "Buy/Sell") (some (today + 15))) = "Critical") ∧
    (Integration.calculateStatus today
      (intRowFull (some "No") (some "Buy/Sell") (some (today + 16))) = "On Track") ∧
    (Integration.calculateStatus today
      (intRowFull (some "No") (some "Buy/Sell") (some (today + 3))) = "Critical") ∧
    (0 ≤ d → d < 3 → Integration.calculateStatus today
      (intRowFull (some "No") (some "Buy/Sell") (some (today + d))) = "Escalated") ∧
    (Integration.calculateStatus today
      (intRowFull (some "No") (some "New Point") (some (today + 15))) = "Critical") ∧
    (Integration.calculateStatus today
      (intRowFull (some "No") (some "New Point") (some (today + 16))) = "On Track") ∧
    (Integration.calculateStatus today
      (intRowFull (some "No") (some "New Point") (some (today + 3))) = "Critical") ∧
    (0 ≤ d → d < 3 → Integration.calculateStatus today
      (intRowFull (some "No") (some "New Point") (some (today + d))) = "Escalated") := by
  have esc : ∀ (e : Int), 0 ≤ d → d < e →
      ∀ it, it ≠ "" → ((Integration.THRESHOLDS it).getD ⟨15, 3, 15, 3⟩).escalated = e →
      Integration.calculateStatus today
        (intRowFull (some "No") (some it) (some (today + d))) = "Escalated" := by
    intro e h1 h2 it hit ht
    rw [calcStatus_full _ _ _ hit]
    simp only [ht]
    rw [if_neg (by omega), if_pos (by omega)]
  refine ⟨?_, ?_, ?_, fun h1 h2 => ?_, ?_, ?_, ?_, fun h1 h2 => ?_, ?_, ?_, ?_,
    fun h1 h2 => ?_⟩
  · rw [calcStatus_full _ _ _ (by decide)]; simp [Integration.THRESHOLDS]
  · rw [calcStatus_full _ _ _ (by decide)]; simp [Integration.THRESHOLDS]
  · rw [calcStatus_full _ _ _ (by decide)]; simp [Integration.THRESHOLDS]
  · exact esc 30 h1 h2 "Conquest" (by decide) (by simp [Integration.THRESHOLDS])
  · rw [calcStatus_full _ _ _ (by decide)]; simp [Integration.THRESHOLDS]
  · rw [calcStatus_full _ _ _ (by decide)]; simp [Integration.THRESHOLDS]
  · rw [calcStatus_full _ _ _ (by decide)]; simp [Integration.THRESHOLDS]
  · exact esc 3 h1 h2 "Buy/Sell" (by decide) (by simp [Integration.THRESHOLDS])
  · rw [calcStatus_full _ _ _ (by decide)]; simp [Integration.THRESHOLDS]
  · rw [calcStatus_full _ _ _ (by decide)]; simp [Integration.THRESHOLDS]
  · rw [calcStatus_full _ _ _ (by decide)]; simp [Integration.THRESHOLDS]
  · exact esc 3 h1 h2 "New Point" (by decide) (by simp [Integration.THRESHOLDS])

/-- C3 witness: the theorem applied at today = 0, d = 5 (resp. d = 1),
discharging the non-negativity hypotheses. -/
theorem C3_witness :
    Integration.calculateStatus 0
      (intRowFull (some "No") (some "Conquest") (some (0 + 5))) = "Escalated" ∧
    Integration.calculateStatus 0
      (intRowFull (some "No") (some "Buy/Sell") (some (0 + 1))) = "Escalated" ∧
    Integration.calculateStatus 0
      (intRowFull (some "No") (some "New Point") (some (0 + 1))) = "Escalated" :=
  ⟨(C3_integration_threshold_boundaries 0 5).2.2.2.1 (by norm_num) (by norm_num),
   (C3_integration_threshold_boundaries 0 1).2.2.2.2.2.2.2.1 (by norm_num) (by norm_num),
   (C3_integration_threshold_boundaries 0 1).2.2.2.2.2.2.2.2.2.2.2 (by norm_num) (by norm_num)⟩

/-- C10: a rolled-out Integration record (go-live strictly before today)
with Vendor List Updated = 'No', all required fields present and a
non-missing implementation type is classified GTG, never Escalated or
Critical. -/
theorem C10_rolled_out_integration_is_GTG (today g : Int) (it : String)
    (hit : it ≠ "") (hroll : g < today) :
    Integration.calculateStatus today (intRowFull (some "No") (some it) (some g)) = "GTG" := by
  rw [calcStatus_full today g it hit]
  simp [show g - today < 0 by omega]

/-- C10 witness: yesterday's Conquest go-live with flag 'No' is GTG. -/
theorem C10_witness :
    Integration.calculateStatus 1
      (intRowFull (some "No") (some "Conquest") (some 0)) = "GTG" :=
  C10_rolled_out_integration_is_GTG 1 0 "Conquest" (by decide) (by norm_num)

lemma blank_configType_normalizes_none {ct : Option String}
    (h : ct = none ∨ ct = some "") : CRM.normalizeConfigType ct = none := by
  rcases h with h | h <;> subst h <;> rfl

/-- C1 counterexample: an ARC module cell that is blank on a rolled-out
record (go-live yesterday) is classified "Not Configured", not
"Data Incorrect" / "Data Incomplete". -/
theorem C1_counterexample :
    ARC.processModuleStatus none (ARC.isRolledOut 1 (some 0)) = some "Not Configured" ∧
    (some "Not Configured" : Option String) ≠ some "Data Incorrect" ∧
    (some "Not Configured" : Option String) ≠ some "Data Incomplete" := by
  refine ⟨?_, by decide, by decide⟩
  rfl

/-- C1 (amended): a record whose relevant dimension inputs are all blank
and whose go-live date is strictly before today is classified
"Data Incorrect" in all three CRM dimensions and "Data Incomplete" in the
Integration domain; the ARC module dimension classifies such a blank
module "Not Configured" instead, and the Regression domain's Data
Incomplete rule keys on the SIM Start Date being before today rather
than the go-live date. -/
theorem C1_blank_rolled_out_statuses (today g d : Int) (r : CRM.Row)
    (ri : Integration.Row) (rr : Regression.Row) (st : Option String) :
    ((r.configType = none ∨ r.configType = some "") → r.goLive = some g → g < today →
      CRM.getConfigStatus today r = some "Data Incorrect") ∧
    (Hub.isBlankCell r.domainUpdated = true → Hub.isBlankCell r.setupCheck = true →
      r.goLive = some g → g < today →
      CRM.getPreGoLiveStatus today r = some "Data Incorrect") ∧
    (Hub.isBlankCell r.sampleADF = true → Hub.isBlankCell r.inboundEmail = true →
      Hub.isBlankCell r.outboundEmail = true → Hub.isBlankCell r.dataMigration = true →
      r.goLive = some g → g < today →
      CRM.getGoLiveTestingStatus today r = some "Data Incorrect") ∧
    (Hub.isBlankCell ri.vendorListUpdated = true →
      Integration.isDataIncomplete ri = false → ri.goLive = some g → g < today →
      Integration.calculateStatus today ri = "Data Incomplete") ∧
    (Hub.isBlankCell st = true → ARC.isRolledOut today (some g) = true →
      ARC.processModuleStatus st (ARC.isRolledOut today (some g)) = some "Not Configured") ∧
    (Hub.isBlankCell rr.status = true → rr.simStart = some d → d < today →
      Regression.isDataIncomplete today rr = true) := by
  refine ⟨?_, ?_, ?_, ?_, ?_, ?_⟩
  · intro hct hgl hlt
    simp [CRM.getConfigStatus, blank_configType_normalizes_none hct,
      CRM.isRolledOut, hgl, hlt]
  · intro hd hs hgl hlt
    simp [CRM.getPreGoLiveStatus, hd, hs, CRM.isRolledOut, hgl, hlt]
  · intro h1 h2 h3 h4 hgl hlt
    simp [CRM.getGoLiveTestingStatus, CRM.daysToGoLive, hgl, h1, h2, h3, h4,
      CRM.isRolledOut, hlt, show ¬(g - today > 0) by omega]
  · intro hvlu hinc hgl hlt
    have hne : ri.vendorListUpdated ≠ some "Yes" := by
      cases h : ri.vendorListUpdated with
      | none => simp
      | some s => rw [h] at hvlu; simp [Hub.isBlankCell] at hvlu; simp [hvlu]
    have hne2 : ri.vendorListUpdated ≠ some "No" := by
      cases h : ri.vendorListUpdated with
      | none => simp
      | some s => rw [h] at hvlu; simp [Hub.isBlankCell] at hvlu; simp [hvlu]
    simp [Integration.calculateStatus, hinc, hne, hne2]
  · intro hst hro
    rw [hro]
    rcases st with _ | s
    · rfl
    · simp [Hub.isBlankCell] at hst
      subst hst
      rfl
  · intro hst hsim hlt
    rcases h : rr.status with _ | s
    · simp [Regression.isDataIncomplete, hsim, hlt, h]
    · rw [h] at hst
      simp [Hub.isBlankCell] at hst
      simp [Regression.isDataIncomplete, hsim, hlt, h, hst]

/-- C1 witness: the amended rule evaluated on concrete blank rolled-out
records in each domain (today = 1, go-live / SIM date = 0). -/
theorem C1_witness :
    CRM.getConfigStatus 1 (crmBlankInputs (some 0)) = some "Data Incorrect" ∧
    CRM.getPreGoLiveStatus 1 (crmBlankInputs (some 0)) = some "Data Incorrect" ∧
    CRM.getGoLiveTestingStatus 1 (crmBlankInputs (some 0)) = some "Data Incorrect" ∧
    Integration.calculateStatus 1 (intRowFull none (some "Conquest") (some 0)) = "Data Incomplete" ∧
    ARC.processModuleStatus none (ARC.isRolledOut 1 (some 0)) = some "Not Configured" ∧
    Regression.isDataIncomplete 1 ⟨some 0, some 0, none, "NAM"⟩ = true := by
  obtain ⟨h1, h2, h3, h4, h5, h6⟩ :=
    C1_blank_rolled_out_statuses 1 0 0 (crmBlankInputs (some 0))
      (intRowFull none (some "Conquest") (some 0)) ⟨some 0, some 0, none, "NAM"⟩ none
  exact ⟨h1 (Or.inl rfl) rfl (by norm_num),
         h2 rfl rfl rfl (by norm_num),
         h3 rfl rfl rfl rfl rfl (by norm_num),
         h4 rfl (by decide) rfl (by norm_num),
         h5 rfl (by decide),
         h6 rfl rfl (by norm_num)⟩


lemma isFailing_not_passes {v : Option String} (h : CRM.isFailing v = true) :
    CRM.passesOrBlank v = false := by
  rcases v with _ | s
  · simp [CRM.isFailing] at h
  · simp only [CRM.isFailing, Bool.not_eq_true', Bool.or_eq_false_iff,
      decide_eq_false_iff_not] at h
    obtain ⟨⟨⟨⟨hy, hni⟩, _⟩, _⟩, he⟩ := h
    simp [CRM.passesOrBlank, hy, hni, he]

lemma all_passes_false_of_failing {r : CRM.Row} {v : Option String}
    (hv : v ∈ [r.sampleADF, r.inboundEmail, r.outboundEmail, r.dataMigration])
    (h : CRM.isFailing v = true) :
    ([r.sampleADF, r.inboundEmail, r.outboundEmail, r.dataMigration].all
      CRM.passesOrBlank) = false := by
  rw [List.all_eq_false]
  exact ⟨v, hv, by simp [isFailing_not_passes h]⟩

lemma gltStatus_past_nonblank (today : Int) (r : CRM.Row) (g : Int)
    (hg : r.goLive = some g) (hle : g ≤ today)
    (hnb : ([r.sampleADF, r.inboundEmail, r.outboundEmail, r.dataMigration].all
      Hub.isBlankCell) = false) :
    CRM.getGoLiveTestingStatus today r =
      (if [r.sampleADF, r.inboundEmail, r.outboundEmail, r.dataMigration].all
          CRM.passesOrBlank then some "GTG"
       else
         let hasBlocker := CRM.isFailing r.sampleADF || CRM.isFailing r.dataMigration
         let hasNonBlocker := CRM.isFailing r.inboundEmail || CRM.isFailing r.outboundEmail
         if hasBlocker && hasNonBlocker then some "Go Live Blocker & Non-Blocker"
         else if hasBlocker then some "Go Live Blocker"
         else if hasNonBlocker then some "Non-Blocker"
         else none) := by
  simp [CRM.getGoLiveTestingStatus, CRM.daysToGoLive, hg, hnb,
    show ¬(g - today > 0) by omega]

/-- C4 counterexample: a record with all four tests "Yes" but a future
go-live date (days-to-go-live = 5 > 0) gets status None, not GTG, so the
claim fails without a days-to-go-live ≤ 0 restriction. -/
theorem C4_counterexample :
    CRM.getGoLiveTestingStatus 0
      ⟨some 5, none, none, none, some "Yes", some "Yes", some "Yes", some "Yes", some "NAM"⟩
      = none ∧
    (none : Option String) ≠ some "GTG" := by
  exact ⟨by rfl, by decide⟩

/-- C4 (amended): for records whose days-to-go-live is at most zero and
whose four tests are not all blank: all non-blank test values in
{Yes, No Issues} gives GTG; a test counts as failing when it is non-blank
and outside {Yes, No Issues, Unable to Test, Umable to Test}; a blocking
and a non-blocking failure give the combined status, only a blocking
failure gives "Go Live Blocker", only a non-blocking failure gives
"Non-Blocker". -/
theorem C4_go_live_testing_partition (today g : Int) (r : CRM.Row)
    (hg : r.goLive = some g) (hle : g ≤ today)
    (hnb : ([r.sampleADF, r.inboundEmail, r.outboundEmail, r.dataMigration].all
      Hub.isBlankCell) = false) :
    (([r.sampleADF, r.inboundEmail, r.outboundEmail, r.dataMigration].all
        CRM.passesOrBlank) = true →
      CRM.getGoLiveTestingStatus today r = some "GTG") ∧
    ((CRM.isFailing r.sampleADF || CRM.isFailing r.dataMigration) = true →
     (CRM.isFailing r.inboundEmail || CRM.isFailing r.outboundEmail) = true →
      CRM.getGoLiveTestingStatus today r = some "Go Live Blocker & Non-Blocker") ∧
    ((CRM.isFailing r.sampleADF || CRM.isFailing r.dataMigration) = true →
     (CRM.isFailing r.inboundEmail || CRM.isFailing r.outboundEmail) = false →
      CRM.getGoLiveTestingStatus today r = some "Go Live Blocker") ∧
    ((CRM.isFailing r.sampleADF || CRM.isFailing r.dataMigration) = false →
     (CRM.isFailing r.inboundEmail || CRM.isFailing r.outboundEmail) = true →
      CRM.getGoLiveTestingStatus today r = some "Non-Blocker") := by
  rw [gltStatus_past_nonblank today r g hg hle hnb]
  refine ⟨fun hp => by simp [hp], fun hb hn => ?_, fun hb hn => ?_, fun hb hn => ?_⟩
  · have : ([r.sampleADF, r.inboundEmail, r.outboundEmail, r.dataMigration].all
        CRM.passesOrBlank) = false := by
      rcases (show CRM.isFailing r.sampleADF = true ∨ CRM.isFailing r.dataMigration = true
        by simpa using hb) with h | h
      · exact all_passes_false_of_failing (by simp) h
      · exact all_passes_false_of_failing (by simp) h
    simp [this, hb, hn]
  · have : ([r.sampleADF, r.inboundEmail, r.outboundEmail, r.dataMigration].all
        CRM.passesOrBlank) = false := by
      rcases (show CRM.isFailing r.sampleADF = true ∨ CRM.isFailing r.dataMigration = true
        by simpa using hb) with h | h
      · exact all_passes_false_of_failing (by simp) h
      · exact all_passes_false_of_failing (by simp) h
    simp [this, hb, hn]
  · have : ([r.sampleADF, r.inboundEmail, r.outboundEmail, r.dataMigration].all
        CRM.passesOrBlank) = false := by
      rcases (show CRM.isFailing r.inboundEmail = true ∨ CRM.isFailing r.outboundEmail = true
        by simpa using hn) with h | h
      · exact all_passes_false_of_failing (by simp) h
      · exact all_passes_false_of_failing (by simp) h
    simp [this, hb, hn]

/-- C4 witness: the amended classification applied to concrete rolled-out
records, one per branch. -/
theorem C4_witness :
    CRM.getGoLiveTestingStatus 1
      ⟨some 0, none, none, none, some "Yes", some "Yes", some "No Issues", some "Yes", some "NAM"⟩
      = some "GTG" ∧
    CRM.getGoLiveTestingStatus 1
      ⟨some 0, none, none, none, some "Issues Found", some "No", some "Yes", some "Yes", some "NAM"⟩
      = some "Go Live Blocker & Non-Blocker" ∧
    CRM.getGoLiveTestingStatus 1
      ⟨some 0, none, none, none, some "No", some "Yes", some "Yes", some "Yes", some "NAM"⟩
      = some "Go Live Blocker" ∧
    CRM.getGoLiveTestingStatus 1
      ⟨some 0, none, none, none, some "Yes", some "No", some "Yes", some "Yes", some "NAM"⟩
      = some "Non-Blocker" :=
  ⟨(C4_go_live_testing_partition 1 0
      ⟨some 0, none, none, none, some "Yes", some "Yes", some "No Issues", some "Yes", some "NAM"⟩
      rfl (by norm_num) (by decide)).1 (by decide),
   (C4_go_live_testing_partition 1 0
      ⟨some 0, none, none, none, some "Issues Found", some "No", some "Yes", some "Yes", some "NAM"⟩
      rfl (by norm_num) (by decide)).2.1 (by decide) (by decide),
   (C4_go_live_testing_partition 1 0
      ⟨some 0, none, none, none, some "No", some "Yes", some "Yes", some "Yes", some "NAM"⟩
      rfl (by norm_num) (by decide)).2.2.1 (by decide) (by decide),
   (C4_go_live_testing_partition 1 0
      ⟨some 0, none, none, none, some "Yes", some "No", some "Yes", some "Yes", some "NAM"⟩
      rfl (by norm_num) (by decide)).2.2.2 (by decide) (by decide)⟩

/-- C6: the weighted Go-Live-Testing score starts at 100 and subtracts
40 / 12.5 / 12.5 / 35 for Sample ADF / Inbound Email / Outbound Email /
Data Migration whenever the value is not in {Yes, No Issues}; the tier
bands are ≥90 Excellent, [75,90) Good, [60,75) NeedsImprovement, <60
Critical; all checks passing scores 100 (Excellent) and Sample ADF alone
failing scores exactly 60 (NeedsImprovement, not Critical). -/
theorem C6_weighted_score (r : CRM.Row) :
    (CRMAnalytics.weightedScore r =
      100 - (if CRMAnalytics.checkFails r.sampleADF then (40 : ℚ) else 0)
          - (if CRMAnalytics.checkFails r.inboundEmail then (25 / 2 : ℚ) else 0)
          - (if CRMAnalytics.checkFails r.outboundEmail then (25 / 2 : ℚ) else 0)
          - (if CRMAnalytics.checkFails r.dataMigration then (35 : ℚ) else 0)) ∧
    (CRMAnalytics.checkFails r.sampleADF = false →
     CRMAnalytics.checkFails r.inboundEmail = false →
     CRMAnalytics.checkFails r.outboundEmail = false →
     CRMAnalytics.checkFails r.dataMigration = false →
      CRMAnalytics.weightedScore r = 100 ∧
      CRMAnalytics.scoreTier (CRMAnalytics.weightedScore r) = "Excellent") ∧
    (CRMAnalytics.checkFails r.sampleADF = true →
     CRMAnalytics.checkFails r.inboundEmail = false →
     CRMAnalytics.checkFails r.outboundEmail = false →
     CRMAnalytics.checkFails r.dataMigration = false →
      CRMAnalytics.weightedScore r = 60 ∧
      CRMAnalytics.scoreTier (CRMAnalytics.weightedScore r) = "NeedsImprovement") ∧
    (90 ≤ CRMAnalytics.weightedScore r →
      CRMAnalytics.scoreTier (CRMAnalytics.weightedScore r) = "Excellent") ∧
    (75 ≤ CRMAnalytics.weightedScore r → CRMAnalytics.weightedScore r < 90 →
      CRMAnalytics.scoreTier (CRMAnalytics.weightedScore r) = "Good") ∧
    (60 ≤ CRMAnalytics.weightedScore r → CRMAnalytics.weightedScore r < 75 →
      CRMAnalytics.scoreTier (CRMAnalytics.weightedScore r) = "NeedsImprovement") ∧
    (CRMAnalytics.weightedScore r < 60 →
      CRMAnalytics.scoreTier (CRMAnalytics.weightedScore r) = "Critical") := by
  refine ⟨?_, ?_, ?_, ?_, ?_, ?_, ?_⟩
  · simp only [CRMAnalytics.weightedScore]
    split_ifs <;> ring
  · intro h1 h2 h3 h4
    have hs : CRMAnalytics.weightedScore r = 100 := by
      simp [CRMAnalytics.weightedScore, h1, h2, h3, h4]
    refine ⟨hs, ?_⟩
    rw [hs]
    simp only [CRMAnalytics.scoreTier]
    rw [if_pos (by norm_num)]
  · intro h1 h2 h3 h4
    constructor
    · simp [CRMAnalytics.weightedScore, h1, h2, h3, h4]; norm_num
    · have hs : CRMAnalytics.weightedScore r = 60 := by
        simp [CRMAnalytics.weightedScore, h1, h2, h3, h4]; norm_num
      rw [hs]
      simp only [CRMAnalytics.scoreTier]
      rw [if_neg (by norm_num), if_neg (by norm_num), if_pos (by norm_num)]
  · intro h
    simp only [CRMAnalytics.scoreTier]
    rw [if_pos h]
  · intro h1 h2
    simp only [CRMAnalytics.scoreTier]
    rw [if_neg (by linarith), if_pos ⟨h1, h2⟩]
  · intro h1 h2
    simp only [CRMAnalytics.scoreTier]
    rw [if_neg (by linarith), if_neg (by rintro ⟨h75, _⟩; linarith), if_pos ⟨h1, h2⟩]
  · intro h
    simp only [CRMAnalytics.scoreTier]
    rw [if_neg (by linarith), if_neg (by rintro ⟨h75, _⟩; linarith),
        if_neg (by rintro ⟨h60, _⟩; linarith)]

/-- C6 witness: concrete all-pass and ADF-only-fail records. -/
theorem C6_witness :
    CRMAnalytics.weightedScore
      ⟨some 0, none, none, none, some "Yes", some "Yes", some "No Issues", some "Yes", none⟩ = 100 ∧
    CRMAnalytics.scoreTier 100 = "Excellent" ∧
    CRMAnalytics.weightedScore
      ⟨some 0, none, none, none, some "Issues Found", some "Yes", some "Yes", some "Yes", none⟩ = 60 ∧
    CRMAnalytics.scoreTier 60 = "NeedsImprovement" := by
  obtain ⟨-, hall, hadf, -, -, -, -⟩ := C6_weighted_score
    ⟨some 0, none, none, none, some "Yes", some "Yes", some "No Issues", some "Yes", none⟩
  obtain ⟨-, -, hadf2, -, -, -, -⟩ := C6_weighted_score
    ⟨some 0, none, none, none, some "Issues Found", some "Yes", some "Yes", some "Yes", none⟩
  obtain ⟨ha, hb⟩ := hall (by decide) (by decide) (by decide) (by decide)
  obtain ⟨hc, hd⟩ := hadf2 (by decide) (by decide) (by decide) (by decide)
  refine ⟨ha, ?_, hc, ?_⟩
  · rw [ha] at hb; exact hb
  · rw [hc] at hd; exact hd

lemma normalizeConfigType_range (ct : Option String) :
    CRM.normalizeConfigType ct = none ∨ CRM.normalizeConfigType ct = some "Standard" ∨
    CRM.normalizeConfigType ct = some "Copy" ∨
    CRM.normalizeConfigType ct = some "Not Configured" := by
  rcases ct with _ | s
  · exact Or.inl rfl
  · simp only [CRM.normalizeConfigType]
    split_ifs <;> simp

lemma configStatus_range (today : Int) (r : CRM.Row) :
    CRM.getConfigStatus today r = none ∨ CRM.getConfigStatus today r = some "Standard" ∨
    CRM.getConfigStatus today r = some "Copy" ∨
    CRM.getConfigStatus today r = some "Not Configured" ∨
    CRM.getConfigStatus today r = some "Data Incorrect" := by
  simp only [CRM.getConfigStatus]
  rcases normalizeConfigType_range r.configType with h | h | h | h <;> rw [h] <;>
    split_ifs <;> simp

lemma preGoLiveStatus_range (today : Int) (r : CRM.Row) :
    CRM.getPreGoLiveStatus today r = none ∨ CRM.getPreGoLiveStatus today r = some "GTG" ∨
    CRM.getPreGoLiveStatus today r = some "Partial" ∨
    CRM.getPreGoLiveStatus today r = some "Fail" ∨
    CRM.getPreGoLiveStatus today r = some "Data Incorrect" := by
  simp only [CRM.getPreGoLiveStatus]
  split_ifs <;> simp

lemma gltStatus_range (today : Int) (r : CRM.Row) :
    CRM.getGoLiveTestingStatus today r = none ∨
    CRM.getGoLiveTestingStatus today r = some "Data Incorrect" ∨
    CRM.getGoLiveTestingStatus today r = some "GTG" ∨
    CRM.getGoLiveTestingStatus today r = some "Go Live Blocker & Non-Blocker" ∨
    CRM.getGoLiveTestingStatus today r = some "Go Live Blocker" ∨
    CRM.getGoLiveTestingStatus today r = some "Non-Blocker" := by
  simp only [CRM.getGoLiveTestingStatus]
  split_ifs <;> simp

lemma countEq_cons (x : Option String) (l : List (Option String)) (v : String) :
    CRM.countEq (x :: l) v = (if x = some v then 1 else 0) + CRM.countEq l v := by
  simp only [CRM.countEq, List.filter_cons]
  split_ifs with h h2 <;> simp_all <;> omega

lemma countContains_cons (x : Option String) (l : List (Option String)) (pat : String) :
    CRM.countContains (x :: l) pat =
      (if (match x with | some t => Hub.strContains t pat | none => false) = true
       then 1 else 0) + CRM.countContains l pat := by
  simp only [CRM.countContains, List.filter_cons]
  split_ifs with h h2 <;> simp_all <;> omega

lemma countNonNull_cons (x : Option String) (l : List (Option String)) :
    CRM.countNonNull (x :: l) = (if x.isSome then 1 else 0) + CRM.countNonNull l := by
  simp only [CRM.countNonNull, List.filter_cons]
  split_ifs with h h2 <;> simp_all <;> omega

lemma config_status_sum (sts : List (Option String))
    (hr : ∀ s ∈ sts, s = none ∨ s = some "Standard" ∨ s = some "Copy" ∨
      s = some "Not Configured" ∨ s = some "Data Incorrect") :
    CRM.countEq sts "Standard" + CRM.countEq sts "Copy" +
      CRM.countEq sts "Not Configured" + CRM.countEq sts "Data Incorrect" =
      CRM.countNonNull sts := by
  induction sts with
  | nil => rfl
  | cons hd tl ih =>
    have htl := ih (fun s hs => hr s (List.mem_cons_of_mem _ hs))
    have hhd := hr hd (List.mem_cons_self _ _)
    rcases hhd with h | h | h | h | h <;> subst h <;>
      simp only [countEq_cons, countNonNull_cons] <;> simp <;> omega

lemma pre_status_sum (sts : List (Option String))
    (hr : ∀ s ∈ sts, s = none ∨ s = some "GTG" ∨ s = some "Partial" ∨
      s = some "Fail" ∨ s = some "Data Incorrect") :
    CRM.countEq sts "GTG" + CRM.countEq sts "Partial" +
      CRM.countEq sts "Fail" + CRM.countEq sts "Data Incorrect" =
      CRM.countNonNull sts := by
  induction sts with
  | nil => rfl
  | cons hd tl ih =>
    have htl := ih (fun s hs => hr s (List.mem_cons_of_mem _ hs))
    have hhd := hr hd (List.mem_cons_self _ _)
    rcases hhd with h | h | h | h | h <;> subst h <;>
      simp only [countEq_cons, countNonNull_cons] <;> simp <;> omega

lemma glt_status_sum (sts : List (Option String))
    (hr : ∀ s ∈ sts, s = none ∨ s = some "Data Incorrect" ∨ s = some "GTG" ∨
      s = some "Go Live Blocker & Non-Blocker" ∨ s = some "Go Live Blocker" ∨
      s = some "Non-Blocker") :
    CRM.countEq sts "GTG" + CRM.countContains sts "Go Live Blocker" +
      CRM.countContains sts "Non-Blocker" + CRM.countEq sts "Fail" +
      CRM.countEq sts "Data Incorrect" =
      CRM.countNonNull sts + CRM.countEq sts "Go Live Blocker & Non-Blocker" := by
  induction sts with
  | nil => rfl
  | cons hd tl ih =>
    have htl := ih (fun s hs => hr s (List.mem_cons_of_mem _ hs))
    have hhd := hr hd (List.mem_cons_self _ _)
    rcases hhd with h | h | h | h | h | h <;> subst h <;>
      simp only [countEq_cons, countContains_cons, countNonNull_cons] <;>
      simp [show Hub.strContains "Data Incorrect" "Go Live Blocker" = false from by decide,
            show Hub.strContains "Data Incorrect" "Non-Blocker" = false from by decide,
            show Hub.strContains "GTG" "Go Live Blocker" = false from by decide,
            show Hub.strContains "GTG" "Non-Blocker" = false from by decide,
            show Hub.strContains "Go Live Blocker & Non-Blocker" "Go Live Blocker" = true from by decide,
            show Hub.strContains "Go Live Blocker & Non-Blocker" "Non-Blocker" = true from by decide,
            show Hub.strContains "Go Live Blocker" "Go Live Blocker" = true from by decide,
            show Hub.strContains "Go Live Blocker" "Non-Blocker" = false from by decide,
            show Hub.strContains "Non-Blocker" "Go Live Blocker" = false from by decide,
            show Hub.strContains "Non-Blocker" "Non-Blocker" = true from by decide] <;>
      omega

/-- C5 counterexample: one record with the combined
"Go Live Blocker & Non-Blocker" status is counted by BOTH the
`Go Live Blocker` and the `Non-Blocker` KPI (via `str.contains`), so the
per-status counts sum to 2 while only 1 record has a non-null status. -/
theorem C5_counterexample :
    CRM.kpiSum (CRM.getGoLiveTestingKpis [some "Go Live Blocker & Non-Blocker"]) = 2 ∧
    CRM.countNonNull [some "Go Live Blocker & Non-Blocker"] = 1 ∧
    (2 : Nat) ≠ 1 := by
  refine ⟨by decide, by decide, by decide⟩

/-- C5 (amended): for the Configuration and Pre-Go-Live dimensions the
per-status KPI counts sum exactly to the number of records with a
non-null status; for the Go-Live-Testing dimension the Blocker and
Non-Blocker cards each also count combined-status records, so the sum
exceeds the non-null count by exactly the number of records with the
combined status; null-status records are never included in any count or
denominator. -/
theorem C5_kpi_denominator (today : Int) (rows : List CRM.Row)
    (sts : List (Option String)) :
    (CRM.kpiSum ((CRM.getConfigurationKpis (rows.map (CRM.getConfigStatus today))).drop 1) =
      CRM.countNonNull (rows.map (CRM.getConfigStatus today))) ∧
    (CRM.kpiSum (CRM.getPreGoLiveKpis (rows.map (CRM.getPreGoLiveStatus today))) =
      CRM.countNonNull (rows.map (CRM.getPreGoLiveStatus today))) ∧
    (CRM.kpiSum (CRM.getGoLiveTestingKpis (rows.map (CRM.getGoLiveTestingStatus today))) =
      CRM.countNonNull (rows.map (CRM.getGoLiveTestingStatus today)) +
      CRM.countEq (rows.map (CRM.getGoLiveTestingStatus today)) "Go Live Blocker & Non-Blocker") ∧
    (CRM.getConfigurationKpis (none :: sts) = CRM.getConfigurationKpis sts) ∧
    (CRM.getPreGoLiveKpis (none :: sts) = CRM.getPreGoLiveKpis sts) ∧
    (CRM.getGoLiveTestingKpis (none :: sts) = CRM.getGoLiveTestingKpis sts) := by
  refine ⟨?_, ?_, ?_, ?_, ?_, ?_⟩
  · have h := config_status_sum (rows.map (CRM.getConfigStatus today)) (by
      intro s hs
      obtain ⟨r, -, rfl⟩ := List.mem_map.mp hs
      exact configStatus_range today r)
    simp only [CRM.kpiSum, CRM.getConfigurationKpis, List.drop, List.map_cons,
      List.map_nil, List.sum_cons, List.sum_nil]
    omega
  · have h := pre_status_sum (rows.map (CRM.getPreGoLiveStatus today)) (by
      intro s hs
      obtain ⟨r, -, rfl⟩ := List.mem_map.mp hs
      exact preGoLiveStatus_range today r)
    simp only [CRM.kpiSum, CRM.getPreGoLiveKpis, List.map_cons,
      List.map_nil, List.sum_cons, List.sum_nil]
    omega
  · have h := glt_status_sum (rows.map (CRM.getGoLiveTestingStatus today)) (by
      intro s hs
      obtain ⟨r, -, rfl⟩ := List.mem_map.mp hs
      exact gltStatus_range today r)
    simp only [CRM.kpiSum, CRM.getGoLiveTestingKpis, List.map_cons,
      List.map_nil, List.sum_cons, List.sum_nil]
    omega
  · simp [CRM.getConfigurationKpis, countEq_cons, countNonNull_cons]
  · simp [CRM.getPreGoLiveKpis, countEq_cons]
  · simp [CRM.getGoLiveTestingKpis, countEq_cons, countContains_cons]

/-- C7 counterexample: the Integration aggregator keys its region counts
by the regions of the slice it is passed. With a full dataset holding
regions EMEA and NAM, the slice filtered to NAM yields a count mapping
whose keys are only ["NAM"]: EMEA has dropped out instead of appearing
with count 0. -/
theorem C7_counterexample :
    Integration.getRegions
      [⟨"GTG", some "NAM"⟩, ⟨"GTG", some "EMEA"⟩] = ["EMEA", "NAM"] ∧
    (Integration.getRegionCounts "GTG"
      (Integration.filterByRegion "NAM"
        [⟨"GTG", some "NAM"⟩, ⟨"GTG", some "EMEA"⟩])).map Prod.fst = ["NAM"] ∧
    "EMEA" ∉ (Integration.getRegionCounts "GTG"
      (Integration.filterByRegion "NAM"
        [⟨"GTG", some "NAM"⟩, ⟨"GTG", some "EMEA"⟩])).map Prod.fst := by
  refine ⟨by decide, by decide, by decide⟩

/-- C7 (amended): the CRM aggregator keys its per-region counts by
`get_regions()` over the FULL dataset (an "All" entry plus every
normalized region of the full data), so a region with no matching record
in the current slice still appears, with count 0; the Integration
aggregator instead keys by the regions present in the passed slice. -/
theorem C7_region_count_keys (full : List CRM.Row) (slice : List CRM.AggRow)
    (sv : String) (dfi : List Integration.ProcRow) (st : String) :
    ((CRM.getRegionCounts full sv slice).map Prod.fst = CRM.getRegions full) ∧
    (∀ region, region ∈ CRM.getRegions full → region ≠ "All" →
      (region, CRM.regionMatchCount (CRM.statusFiltered sv slice) region) ∈
        CRM.getRegionCounts full sv slice) ∧
    (∀ region, region ∈ CRM.getRegions full → region ≠ "All" →
      (∀ r ∈ CRM.statusFiltered sv slice,
        CRM.regionKey (Hub.astypeStr r.region) ≠ CRM.regionKey region) →
      (region, 0) ∈ CRM.getRegionCounts full sv slice) ∧
    ((Integration.getRegionCounts st dfi).map Prod.fst = Integration.getRegions dfi) := by
  refine ⟨?_, ?_, ?_, ?_⟩
  · simp only [CRM.getRegionCounts, List.map_map]
    apply List.map_id''
    intro x
    by_cases hx : x = "All" <;> simp [hx]
  · intro region hmem hne
    simp only [CRM.getRegionCounts]
    exact List.mem_map.mpr ⟨region, hmem, by simp [hne]⟩
  · intro region hmem hne hno
    have hz : CRM.regionMatchCount (CRM.statusFiltered sv slice) region = 0 := by
      simp only [CRM.regionMatchCount]
      rw [List.length_eq_zero, List.filter_eq_nil]
      intro r hr
      simpa using hno r hr
    simp only [CRM.getRegionCounts]
    exact List.mem_map.mpr ⟨region, hmem, by simp [hne, hz]⟩
  · simp only [Integration.getRegionCounts, List.map_map]
    apply List.map_id''
    intro x
    simp

/-- C8: a CRM row whose go-live date cell is unparseable is coerced to a
null date; every classifier handles the row without error (null status,
since its inputs are blank and it is never rolled out), and no other
row is affected — but the display projector is NOT safe on it: its
`Days to Go Live` formatter computes `str(int(x))` on the NaN days value
and raises ValueError, aborting the whole display projection. -/
theorem C8_unparseable_date (today : Int) (rest : List CRM.Row) :
    CRM.getConfigStatus today (crmBlankInputs none) = none ∧
    CRM.getPreGoLiveStatus today (crmBlankInputs none) = none ∧
    CRM.getGoLiveTestingStatus today (crmBlankInputs none) = none ∧
    CRM.daysToGoLive today (crmBlankInputs none) = none ∧
    CRM.formatDaysToGoLive (CRM.daysToGoLive today (crmBlankInputs none)) =
      Except.error "ValueError: cannot convert float NaN to integer" ∧
    (rest.map (CRM.getConfigStatus today) =
      ((crmBlankInputs none :: rest).map (CRM.getConfigStatus today)).tail) := by
  refine ⟨rfl, rfl, rfl, rfl, rfl, rfl⟩

/-- C9 counterexample: ARC `get_regions` title-cases the Region column of
the DataFrame it was handed, in place: after the call the stored record's
Region reads "Usa East" instead of the original "USA EAST". -/
theorem C9_counterexample :
    ((ARC.getRegions [⟨"D1", some 0, "Conquest", "A", "USA EAST", none, none, none⟩]).2.map
      (fun r => r.region)) = ["Usa East"] ∧
    (["Usa East"] : List String) ≠ ["USA EAST"] ∧
    (ARC.getRegions [⟨"D1", some 0, "Conquest", "A", "USA EAST", none, none, none⟩]).2 ≠
      [⟨"D1", some 0, "Conquest", "A", "USA EAST", none, none, none⟩] := by
  refine ⟨by decide, by decide, by decide⟩

/-- C9 (amended): the filter façades return fresh filtered views (every
result is a sublist of the input, which the model leaves untouched), but
ARC's and Regression's `get_regions` rewrite the Region column of their
input in place (strip + title-case), leaving every other field unchanged,
so stored Region values can change after a call. -/
theorem C9_facade_mutation (status region : String) (df : List ARC.Row)
    (dfr : List Regression.Row) (dfi : List Integration.ProcRow) :
    (ARC.filterByStatus status df).Sublist df ∧
    (ARC.filterByRegion region df).Sublist df ∧
    (Regression.filterByRegion region dfr).Sublist dfr ∧
    (Integration.filterByRegion region dfi).Sublist dfi ∧
    ((ARC.getRegions df).2 = ARC.normalizeRegionColumn df) ∧
    ((Regression.getRegions dfr).2 = Regression.normalizeRegionColumn dfr) ∧
    ((ARC.getRegions df).2.map (fun r => r.region) =
      df.map (fun r => Hub.titleCase (Hub.pyStrip r.region))) ∧
    ((ARC.getRegions df).2.map
        (fun r => (r.dealership, r.goLive, r.implType, r.assignedTo,
                   r.parts, r.service, r.accounting)) =
      df.map (fun r => (r.dealership, r.goLive, r.implType, r.assignedTo,
                   r.parts, r.service, r.accounting))) ∧
    ((Regression.getRegions dfr).2.map (fun r => (r.goLive, r.simStart, r.status)) =
      dfr.map (fun r => (r.goLive, r.simStart, r.status))) := by
  refine ⟨List.filter_sublist _, ?_, ?_, List.filter_sublist _, ?_, ?_, ?_, ?_, ?_⟩
  · simp only [ARC.filterByRegion]
    split_ifs
    · exact List.Sublist.refl df
    · exact List.filter_sublist _
  · simp only [Regression.filterByRegion]
    split_ifs
    · exact List.Sublist.refl dfr
    · exact List.filter_sublist _
  · simp only [ARC.getRegions]
    split_ifs <;> rfl
  · simp only [Regression.getRegions]
    split_ifs <;> rfl
  · simp only [ARC.getRegions]
    split_ifs <;> simp [ARC.normalizeRegionColumn, List.map_map, Function.comp]
  · simp only [ARC.getRegions]
    split_ifs <;> simp [ARC.normalizeRegionColumn, List.map_map, Function.comp]
  · simp only [Regression.getRegions]
    split_ifs <;> simp [Regression.normalizeRegionColumn, List.map_map, Function.comp]

/-- C7 witness: with a full CRM dataset holding regions NAM and EMEA and
a slice containing only a NAM record, the region "Emea" still appears in
the count mapping, with count 0. -/
theorem C7_witness :
    ("Emea", 0) ∈ CRM.getRegionCounts
      [⟨some 0, none, none, none, none, none, none, none, some "NAM"⟩,
       ⟨some 0, none, none, none, none, none, none, none, some "EMEA"⟩]
      "GTG" [⟨some "GTG", some "NAM"⟩] :=
  (C7_region_count_keys
      [⟨some 0, none, none, none, none, none, none, none, some "NAM"⟩,
       ⟨some 0, none, none, none, none, none, none, none, some "EMEA"⟩]
      [⟨some "GTG", some "NAM"⟩] "GTG" [] "GTG").2.2.1 "Emea"
    (by decide) (by decide) (by decide)
